import Mathlib

/-
Shallow embedding of the cosmo-trigger monitoring daemon.

The monitor state machine lives in src/service/monitor.ts (the functional
variant with injected dependencies): ensureChainIdentity, checkNodeLiveness,
detectUpgradePlan, handleUpgradeExecution, monitorChain, startMonitoring.
External dependency calls (Cosmos REST gateway, GitLab pipeline trigger,
delays) are modelled by an environment record holding the value each call
would return in the cycle under study, and every embedded operation also
returns the list of dependency calls it performed, in order, so that claims
about which external effects happen can be stated as facts about that trace.

JavaScript number values that flow through truthiness tests are modelled as
Int, with falsiness of a nullable number being: null, or the value 0.
-/

namespace CosmoTrigger

/- JSON value model for the Chain Data Gateway parsing code (safeGet and
getBlockHeight in src/utils/http.ts and src/service/cosmos.ts). -/

inductive JsVal where
  | null
  | bool (b : Bool)
  | num (n : Int)
  | str (s : String)
  | obj (fields : List (String × JsVal))

/- Property lookup on an object literal; none models an undefined key. -/
def lookupField (fields : List (String × JsVal)) (k : String) : Option JsVal :=
  match fields with
  | [] => none
  | (k2, v) :: rest => if k2 = k then some v else lookupField rest k

/- Loop of safeGet from src/utils/http.ts: at each step, a current value that
is null or undefined, or not an object, yields null; otherwise the next key
is read (possibly undefined). The final value is coalesced with null. -/
def safeGetLoop : Option JsVal → List String → Option JsVal
  | cur, [] =>
    match cur with
    | some JsVal.null => none
    | some v => some v
    | none => none
  | cur, k :: rest =>
    match cur with
    | some (JsVal.obj fields) => safeGetLoop (lookupField fields k) rest
    | _ => none

/- safeGet from src/utils/http.ts. -/
def safeGet (o : JsVal) (path : List String) : Option JsVal :=
  safeGetLoop (some o) path

/- JavaScript truthiness of a JSON value. -/
def jsTruthy : JsVal → Bool
  | JsVal.null => false
  | JsVal.bool b => b
  | JsVal.num n => n != 0
  | JsVal.str s => s != ""
  | JsVal.obj _ => true

/- JavaScript string coercion of a JSON value, as parseInt applies it. -/
def jsToString : JsVal → String
  | JsVal.null => "null"
  | JsVal.bool true => "true"
  | JsVal.bool false => "false"
  | JsVal.num n => toString n
  | JsVal.str s => s
  | JsVal.obj _ => "[object Object]"

/- Longest leading run of decimal digits. -/
def takeDigits : List Char → List Char
  | [] => []
  | c :: cs => if c.isDigit then c :: takeDigits cs else []

/- Value of a digit string. -/
def digitsVal (ds : List Char) : Nat :=
  ds.foldl (fun a c => a * 10 + (c.toNat - 48)) 0

/- JavaScript parseInt(s, 10): skip leading whitespace, optional sign, then
the longest run of decimal digits; none models NaN (no digits found). -/
def parseIntJS (s : String) : Option Int :=
  let cs := s.data.dropWhile (fun c => c.isWhitespace)
  match cs with
  | '-' :: rest =>
    if (takeDigits rest).isEmpty then none
    else some (-(digitsVal (takeDigits rest) : Int))
  | '+' :: rest =>
    if (takeDigits rest).isEmpty then none
    else some ((digitsVal (takeDigits rest) : Int))
  | _ =>
    if (takeDigits cs).isEmpty then none
    else some ((digitsVal (takeDigits cs) : Int))

/- getBlockHeight from src/service/cosmos.ts. The argument is the outcome of
the fetchJson call: none models a transport failure (isFailure result), some
body is the parsed JSON response. The source reads
block.header.height with safeGet, returns null when that is falsy, then
applies parseInt and returns null when the result is NaN. -/
def getBlockHeight (fetchResult : Option JsVal) : Option Int :=
  match fetchResult with
  | none => none
  | some body =>
    match safeGet body ["block", "header", "height"] with
    | none => none
    | some v => if jsTruthy v then parseIntJS (jsToString v) else none

/- Pipeline status classification, src/service/gitlab.ts. -/

inductive PipelineStatusClassification where
  | TERMINAL
  | NON_TERMINAL
  | UNKNOWN
deriving DecidableEq

def TERMINAL_STATUSES : List String := ["success", "failed", "canceled", "skipped"]

def NON_TERMINAL_STATUSES : List String := ["pending", "running", "manual", "created"]

/- classifyPipelineStatus from src/service/gitlab.ts. -/
def classifyPipelineStatus (status : String) : PipelineStatusClassification :=
  if TERMINAL_STATUSES.contains status then
    PipelineStatusClassification.TERMINAL
  else if NON_TERMINAL_STATUSES.contains status then
    PipelineStatusClassification.NON_TERMINAL
  else
    PipelineStatusClassification.UNKNOWN

/- Outcome of one polling iteration of fetchGitlabPipelineStatus: the inner
checkPipelineStatus returns null on a transport failure or on a missing or
falsy status field, an exception may be thrown, or a status string comes
back. -/
inductive PollOutcome where
  | fetchFailure
  | noStatusField
  | throws
  | status (s : String)
deriving DecidableEq

/- fetchGitlabPipelineStatus from src/service/gitlab.ts, driven by the list
of successive poll outcomes. A null from checkPipelineStatus and a thrown
exception both yield the string failed immediately; a terminal status is
returned as is; otherwise (non-terminal or unknown) the function sleeps and
recurses. none models the unbounded recursion not reaching a terminal
outcome within the supplied list. -/
def fetchGitlabPipelineStatus : List PollOutcome → Option String
  | [] => none
  | PollOutcome.fetchFailure :: _ => some "failed"
  | PollOutcome.noStatusField :: _ => some "failed"
  | PollOutcome.throws :: _ => some "failed"
  | PollOutcome.status s :: rest =>
    match classifyPipelineStatus s with
    | PipelineStatusClassification.TERMINAL => some s
    | _ => fetchGitlabPipelineStatus rest

/- Outcome of the trigger POST in triggerGitlabUpdatePipeline: the fetch may
throw, return a non-OK response, return OK with a body that fails to parse
as a pipeline, or return OK with a pipeline carrying an id. -/
inductive TriggerResponse where
  | throws
  | notOk (statusCode : Int)
  | okParseFail
  | okPipeline (id : Int)
deriving DecidableEq

/- triggerGitlabUpdatePipeline from src/service/gitlab.ts: false on a thrown
error, a non-OK response, or a parse failure; otherwise it polls the created
pipeline to a terminal status and compares that status with the string
success. none models the poll never terminating. -/
def triggerGitlabUpdatePipeline (resp : TriggerResponse)
    (polls : List PollOutcome) : Option Bool :=
  match resp with
  | TriggerResponse.throws => some false
  | TriggerResponse.notOk _ => some false
  | TriggerResponse.okParseFail => some false
  | TriggerResponse.okPipeline _ =>
    match fetchGitlabPipelineStatus polls with
    | none => none
    | some s => some (s == "success")

/- Monitor state machine, src/service/monitor.ts. -/

/- ChainIdentity from src/types/chain-identity.ts. -/
structure ChainIdentity where
  nodeId : String
  listenAddr : String
  network : String
  moniker : String
  version : String
  rpcAddress : String
deriving DecidableEq

/- MonitorState from src/types/monitor.ts. -/
structure MonitorState where
  upgradePlanBlockHeight : Option Int := none
  chainIdentity : Option ChainIdentity := none
  isCosmosNodeDown : Bool := false
deriving DecidableEq

/- The part of the Config record (config/config.ts) the monitor reads. -/
structure Config where
  cosmosNodeRestUrl : String
  pollIntervalMs : Int
deriving DecidableEq

/- One monitoring cycle performs each dependency call at most once per call
site, so an environment record with the value each call would return fully
determines the cycle. fetchIdentity feeds the getChainIdentity call made by
ensureChainIdentity; refreshIdentity feeds the getChainIdentity call made
after a successful pipeline; fetchHeight feeds getBlockHeight; fetchPlan
feeds getUpgradePlan; triggerResult feeds triggerUpdatePipeline. -/
structure Env where
  fetchIdentity : Option ChainIdentity
  fetchHeight : Option Int
  fetchPlan : Option Int
  triggerResult : Bool
  refreshIdentity : Option ChainIdentity
deriving DecidableEq

/- Trace entry recording one dependency invocation of a cycle. -/
inductive Call where
  | getChainIdentityCall
  | getBlockHeightCall
  | getUpgradePlanCall
  | triggerPipelineCall
  | delayCall (ms : Int)
deriving DecidableEq

def LONG_POLL_INTERVAL_MS : Int := 10000

def POST_UPGRADE_WAIT_MS : Int := 600000

def ERROR_RETRY_INTERVAL_MS : Int := 5000

/- Truthiness test of a nullable JavaScript number: null and 0 are falsy. -/
def jsOptFalsy : Option Int → Bool
  | none => true
  | some n => n == 0

/- The comparison currentHeight < state.upgradePlanBlockHeight as JavaScript
evaluates it (null coerces to 0; the null case is shielded by short-circuit
evaluation at the single use site). -/
def jsLtOpt (c : Int) : Option Int → Bool
  | none => decide (c < 0)
  | some h => decide (c < h)

/- ensureChainIdentity from src/service/monitor.ts: returns the cached
identity when present, otherwise fetches, stores whatever comes back, and
returns it. -/
def ensureChainIdentity (env : Env) (state : MonitorState) :
    Option ChainIdentity × MonitorState × List Call :=
  match state.chainIdentity with
  | some ci => (some ci, state, [])
  | none =>
    (env.fetchIdentity, { state with chainIdentity := env.fetchIdentity },
      [Call.getChainIdentityCall])

/- checkNodeLiveness from src/service/monitor.ts: fetches the block height;
a falsy result (null or 0) marks the node down and asks the cycle to wait;
otherwise the node is marked up and the height is passed downstream. -/
def checkNodeLiveness (env : Env) (state : MonitorState) :
    (Option Int × Bool) × MonitorState × List Call :=
  if jsOptFalsy env.fetchHeight then
    ((none, true), { state with isCosmosNodeDown := true },
      [Call.getBlockHeightCall])
  else
    ((env.fetchHeight, false), { state with isCosmosNodeDown := false },
      [Call.getBlockHeightCall])

/- detectUpgradePlan from src/service/monitor.ts: a no-op when a plan height
is already cached, otherwise fetches the plan height and caches whatever
comes back (possibly null). -/
def detectUpgradePlan (env : Env) (state : MonitorState) :
    MonitorState × List Call :=
  match state.upgradePlanBlockHeight with
  | some _ => (state, [])
  | none =>
    ({ state with upgradePlanBlockHeight := env.fetchPlan },
      [Call.getUpgradePlanCall])

/- handleUpgradeExecution from src/service/monitor.ts: when the cached plan
height is falsy or the current height is below it, do nothing. Otherwise
trigger the pipeline; on success clear the plan height, wait the quiet
period and re-fetch the identity, storing whatever comes back; on failure
leave the state untouched and wait the same quiet period. -/
def handleUpgradeExecution (env : Env) (state : MonitorState)
    (currentHeight : Int) : (Bool × Bool) × MonitorState × List Call :=
  if jsOptFalsy state.upgradePlanBlockHeight
      || jsLtOpt currentHeight state.upgradePlanBlockHeight then
    ((false, true), state, [])
  else if env.triggerResult then
    ((true, true),
      { state with upgradePlanBlockHeight := none,
                   chainIdentity := env.refreshIdentity },
      [Call.triggerPipelineCall, Call.delayCall POST_UPGRADE_WAIT_MS,
        Call.getChainIdentityCall])
  else
    ((true, true), state,
      [Call.triggerPipelineCall, Call.delayCall POST_UPGRADE_WAIT_MS])

/- monitorChain from src/service/monitor.ts: one decision cycle. The aborted
flag is the state of the cancellation signal at cycle entry; a non-aborted
cycle returns some delay. The non-null assertion the source places on
currentHeight before handleUpgradeExecution is modelled with getD 0; it is
reachable only with shouldWait false, where the height is present. -/
def monitorChain (config : Config) (env : Env) (state : MonitorState)
    (aborted : Bool) : Option Int × MonitorState × List Call :=
  if aborted then (none, state, [])
  else
    let r1 := ensureChainIdentity env state
    match r1.1 with
    | none => (some LONG_POLL_INTERVAL_MS, r1.2.1, r1.2.2)
    | some _ =>
      let r2 := checkNodeLiveness env r1.2.1
      if r2.1.2 then
        (some LONG_POLL_INTERVAL_MS, r2.2.1, r1.2.2 ++ r2.2.2)
      else
        let r3 := detectUpgradePlan env r2.2.1
        if jsOptFalsy r3.1.upgradePlanBlockHeight then
          (some config.pollIntervalMs, r3.1, r1.2.2 ++ r2.2.2 ++ r3.2)
        else
          let r4 := handleUpgradeExecution env r3.1 (r2.1.1.getD 0)
          if r4.1.1 then
            (some config.pollIntervalMs, r4.2.1,
              r1.2.2 ++ r2.2.2 ++ r3.2 ++ r4.2.2)
          else
            (some config.pollIntervalMs, r4.2.1,
              r1.2.2 ++ r2.2.2 ++ r3.2 ++ r4.2.2)

/- Scheduler loop, startMonitoring from src/service/monitor.ts. One loop
iteration observes the cancellation signal at the while condition, then runs
one cycle which either returns a delay option or throws. The loop is driven
by the list of per-iteration inputs; the trace records the sleeps performed
and the error logging of the catch block. -/

inductive CycleResult where
  | ret (d : Option Int)
  | throws
deriving DecidableEq

structure IterInput where
  abortedAtTop : Bool
  cycle : CycleResult
deriving DecidableEq

inductive SchedEvent where
  | sleep (ms : Int)
  | errorLogged
deriving DecidableEq

inductive LoopEnd where
  | abortedEnd
  | fuelEnd
deriving DecidableEq

/- startMonitoring from src/service/monitor.ts: while the signal is not
aborted, run a cycle; a returned non-null delay is slept; a null return
skips the sleep; a thrown error is caught at this boundary, logged, and
followed by the fixed 5000 ms retry sleep. fuelEnd means the supplied
iteration list ran out with the loop still going (the real loop is
unbounded); abortedEnd means the while condition saw the aborted signal. -/
def startMonitoring : List IterInput → List SchedEvent × LoopEnd
  | [] => ([], LoopEnd.fuelEnd)
  | it :: rest =>
    if it.abortedAtTop then ([], LoopEnd.abortedEnd)
    else
      match it.cycle with
      | CycleResult.throws =>
        let r := startMonitoring rest
        (SchedEvent.errorLogged :: SchedEvent.sleep ERROR_RETRY_INTERVAL_MS :: r.1, r.2)
      | CycleResult.ret none =>
        startMonitoring rest
      | CycleResult.ret (some d) =>
        let r := startMonitoring rest
        (SchedEvent.sleep d :: r.1, r.2)

/- Concrete inputs used by the witness theorems. -/

def ciW : ChainIdentity :=
  ⟨"nodeid", "tcp://0.0.0.0:26656", "testnet", "mynode", "v1.0.0", "tcp://127.0.0.1:26657"⟩

def cfgW : Config := ⟨"http://localhost:1317", 2000⟩

def envW : Env :=
  { fetchIdentity := some ciW
    fetchHeight := some 20000
    fetchPlan := some 15000
    triggerResult := false
    refreshIdentity := some ciW }

def envWsucc : Env :=
  { envW with fetchHeight := some 15000, triggerResult := true }

def stW : MonitorState :=
  { upgradePlanBlockHeight := some 15000
    chainIdentity := some ciW
    isCosmosNodeDown := false }

def bodyW : JsVal :=
  JsVal.obj [("block", JsVal.obj [("header", JsVal.obj [("height", JsVal.str "15000")])])]

def envZero : Env := { envW with fetchHeight := some 0 }

def stZero : MonitorState :=
  { upgradePlanBlockHeight := some 0
    chainIdentity := some ciW
    isCosmosNodeDown := false }

end CosmoTrigger

namespace CosmoTrigger

/-- The TERMINAL classification holds exactly on the four terminal status
strings of the source. -/
theorem classify_eq_terminal (s : String) :
    classifyPipelineStatus s = PipelineStatusClassification.TERMINAL
      ↔ (s = "success" ∨ s = "failed" ∨ s = "canceled" ∨ s = "skipped") := by
  unfold classifyPipelineStatus
  split_ifs with h1 h2 <;> simp_all [TERMINAL_STATUSES, NON_TERMINAL_STATUSES]

/-- The NON_TERMINAL classification holds exactly on the four non-terminal
status strings of the source. -/
theorem classify_eq_nonterminal (s : String) :
    classifyPipelineStatus s = PipelineStatusClassification.NON_TERMINAL
      ↔ (s = "pending" ∨ s = "running" ∨ s = "manual" ∨ s = "created") := by
  unfold classifyPipelineStatus
  split_ifs with h1 h2
  · have hd : s = "success" ∨ s = "failed" ∨ s = "canceled" ∨ s = "skipped" := by
      simpa [TERMINAL_STATUSES] using h1
    rcases hd with h | h | h | h <;> subst h <;> decide
  · simp only [true_iff]
    simpa [NON_TERMINAL_STATUSES] using h2
  · have hd : ¬(s = "pending" ∨ s = "running" ∨ s = "manual" ∨ s = "created") := by
      simpa [NON_TERMINAL_STATUSES] using h2
    simp [hd]

/-- Claim C6: classifyPipelineStatus marks exactly success, failed, canceled
and skipped as terminal, exactly pending, running, manual and created as
non-terminal, and everything else as unknown; the polling loop returns a
terminal status immediately, keeps polling on any non-terminal or unknown
status, and returns the string failed immediately on a transport failure, a
missing status field, or a thrown error. -/
theorem c6_status_classification_and_polling (s : String)
    (rest : List PollOutcome) :
    (classifyPipelineStatus s = PipelineStatusClassification.TERMINAL
        ↔ (s = "success" ∨ s = "failed" ∨ s = "canceled" ∨ s = "skipped"))
    ∧ (classifyPipelineStatus s = PipelineStatusClassification.NON_TERMINAL
        ↔ (s = "pending" ∨ s = "running" ∨ s = "manual" ∨ s = "created"))
    ∧ (classifyPipelineStatus s = PipelineStatusClassification.UNKNOWN
        ↔ (¬(s = "success" ∨ s = "failed" ∨ s = "canceled" ∨ s = "skipped")
            ∧ ¬(s = "pending" ∨ s = "running" ∨ s = "manual" ∨ s = "created")))
    ∧ (classifyPipelineStatus s = PipelineStatusClassification.TERMINAL →
        fetchGitlabPipelineStatus (PollOutcome.status s :: rest) = some s)
    ∧ (classifyPipelineStatus s ≠ PipelineStatusClassification.TERMINAL →
        fetchGitlabPipelineStatus (PollOutcome.status s :: rest)
          = fetchGitlabPipelineStatus rest)
    ∧ fetchGitlabPipelineStatus (PollOutcome.fetchFailure :: rest) = some "failed"
    ∧ fetchGitlabPipelineStatus (PollOutcome.noStatusField :: rest) = some "failed"
    ∧ fetchGitlabPipelineStatus (PollOutcome.throws :: rest) = some "failed" := by
  refine ⟨classify_eq_terminal s, classify_eq_nonterminal s, ?_, ?_, ?_, rfl, rfl, rfl⟩
  · constructor
    · intro h
      constructor
      · intro hterm
        rw [← classify_eq_terminal] at hterm
        rw [h] at hterm
        exact PipelineStatusClassification.noConfusion hterm
      · intro hnt
        rw [← classify_eq_nonterminal] at hnt
        rw [h] at hnt
        exact PipelineStatusClassification.noConfusion hnt
    · intro ⟨hterm, hnt⟩
      cases hcl : classifyPipelineStatus s
      · exact absurd ((classify_eq_terminal s).mp hcl) hterm
      · exact absurd ((classify_eq_nonterminal s).mp hcl) hnt
      · rfl
  · intro h
    simp [fetchGitlabPipelineStatus, h]
  · intro h
    cases hcl : classifyPipelineStatus s
    · exact absurd hcl h
    · simp [fetchGitlabPipelineStatus, hcl]
    · simp [fetchGitlabPipelineStatus, hcl]

/-- Witness for claim C6: a pending poll is skipped over, a success poll is
returned immediately, and a transport failure yields the string failed. -/
theorem c6_witness :
    fetchGitlabPipelineStatus
        [PollOutcome.status "pending", PollOutcome.status "success"]
      = some "success"
    ∧ fetchGitlabPipelineStatus [PollOutcome.fetchFailure] = some "failed" := by
  have h1 := c6_status_classification_and_polling "pending" [PollOutcome.status "success"]
  have h2 := c6_status_classification_and_polling "success" ([] : List PollOutcome)
  refine ⟨?_, h1.2.2.2.2.2.1⟩
  rw [h1.2.2.2.2.1 (by decide), h2.2.2.2.1 (by decide)]

/-- Claim C5: the combined trigger-and-poll operation returns true exactly
when the terminal status of the polling loop is the string success; a
non-OK trigger response, a parse failure on the created pipeline, a thrown
error, and every other terminal status all yield false. -/
theorem c5_trigger_success_iff (id code : Int) (polls : List PollOutcome)
    (s : String) :
    triggerGitlabUpdatePipeline (TriggerResponse.notOk code) polls = some false
    ∧ triggerGitlabUpdatePipeline TriggerResponse.okParseFail polls = some false
    ∧ triggerGitlabUpdatePipeline TriggerResponse.throws polls = some false
    ∧ (fetchGitlabPipelineStatus polls = some s →
        (triggerGitlabUpdatePipeline (TriggerResponse.okPipeline id) polls
            = some true ↔ s = "success")) := by
  refine ⟨rfl, rfl, rfl, ?_⟩
  intro hpoll
  simp [triggerGitlabUpdatePipeline, hpoll]

/-- Witness for claim C5: a pipeline whose poll ends in the terminal status
success yields true, one ending in failed yields false, and a non-OK
response yields false without polling. -/
theorem c5_witness :
    triggerGitlabUpdatePipeline (TriggerResponse.okPipeline 1)
        [PollOutcome.status "success"] = some true
    ∧ triggerGitlabUpdatePipeline (TriggerResponse.okPipeline 1)
        [PollOutcome.status "failed"] = some false
    ∧ triggerGitlabUpdatePipeline (TriggerResponse.notOk 403)
        [PollOutcome.status "success"] = some false := by
  have h1 := c5_trigger_success_iff 1 403 [PollOutcome.status "success"] "success"
  have h2 := c5_trigger_success_iff 1 403 [PollOutcome.status "failed"] "failed"
  refine ⟨(h1.2.2.2 (by decide)).mpr rfl, ?_, h1.1⟩
  have h2i := h2.2.2.2 (by decide)
  cases hval : triggerGitlabUpdatePipeline (TriggerResponse.okPipeline 1)
      [PollOutcome.status "failed"] with
  | none => exact absurd hval (by decide)
  | some b =>
    cases b
    · rfl
    · exact absurd (h2i.mp hval) (by decide)

/-- Claim C7: getBlockHeight returns the parsed value of the string-encoded
height field, and returns absent on a transport failure, on a missing height
field, and on a non-numeric height value. -/
theorem c7_getBlockHeight (body : JsVal) (s : String) (n : Int) :
    getBlockHeight none = none
    ∧ (safeGet body ["block", "header", "height"] = none →
        getBlockHeight (some body) = none)
    ∧ (safeGet body ["block", "header", "height"] = some (JsVal.str s) →
        parseIntJS s = none → getBlockHeight (some body) = none)
    ∧ (safeGet body ["block", "header", "height"] = some (JsVal.str s) →
        parseIntJS s = some n → getBlockHeight (some body) = some n) := by
  refine ⟨rfl, ?_, ?_, ?_⟩
  · intro h
    simp [getBlockHeight, h]
  · intro h hp
    by_cases hs : s = ""
    · subst hs
      simp [getBlockHeight, h, jsTruthy]
    · simp [getBlockHeight, h, jsTruthy, jsToString, hs, hp]
  · intro h hp
    have hs : s ≠ "" := by
      intro he
      subst he
      simp [parseIntJS, takeDigits] at hp
    simp [getBlockHeight, h, jsTruthy, jsToString, hs, hp]

/-- Witness for claim C7: a response body with height encoded as the string
15000 parses to 15000, and a transport failure gives absent. -/
theorem c7_witness :
    getBlockHeight (some bodyW) = some 15000 ∧ getBlockHeight none = none := by
  have h := c7_getBlockHeight bodyW "15000" 15000
  exact ⟨h.2.2.2 rfl rfl, h.1⟩

/-- Claim C1: with a cached upgrade plan height and a current height strictly
below it, handleUpgradeExecution returns executed false, leaves the state
untouched, and performs no dependency calls at all (in particular the
pipeline trigger is not invoked and no delay happens). -/
theorem c1_handleUpgradeExecution_not_due (env : Env) (state : MonitorState)
    (h c : Int) (hplan : state.upgradePlanBlockHeight = some h) (hlt : c < h) :
    handleUpgradeExecution env state c = ((false, true), state, []) := by
  have hb : jsLtOpt c state.upgradePlanBlockHeight = true := by
    rw [hplan]
    simpa [jsLtOpt] using hlt
  simp [handleUpgradeExecution, hb]

/-- Witness for claim C1 at plan height 15000 and current height 14000. -/
theorem c1_witness :
    stW.upgradePlanBlockHeight = some 15000 ∧ (14000 : Int) < 15000 ∧
      handleUpgradeExecution envW stW 14000 = ((false, true), stW, []) :=
  ⟨rfl, by decide,
    c1_handleUpgradeExecution_not_due envW stW 15000 14000 rfl (by decide)⟩

/-- Claim C3: with cached plan height 15000 and current height 15000, a
successful pipeline trigger clears the cached plan height, performs exactly
one quiet-period wait of 600000 ms, then re-fetches the chain identity and
stores whatever comes back without re-validation, and the cycle returns the
configured poll interval. -/
theorem c3_trigger_success_scenario (cfg : Config) (env : Env)
    (ci : ChainIdentity) (down : Bool)
    (hfetch : env.fetchHeight = some 15000) (hsucc : env.triggerResult = true) :
    monitorChain cfg env ⟨some 15000, some ci, down⟩ false
      = (some cfg.pollIntervalMs, ⟨none, env.refreshIdentity, false⟩,
          [Call.getBlockHeightCall, Call.triggerPipelineCall,
            Call.delayCall POST_UPGRADE_WAIT_MS, Call.getChainIdentityCall]) := by
  simp [monitorChain, ensureChainIdentity, checkNodeLiveness, detectUpgradePlan,
    handleUpgradeExecution, hfetch, hsucc, jsOptFalsy, jsLtOpt]

/-- Witness for claim C3 with a concrete configuration and environment. -/
theorem c3_witness :
    envWsucc.fetchHeight = some 15000 ∧ envWsucc.triggerResult = true ∧
      monitorChain cfgW envWsucc ⟨some 15000, some ciW, false⟩ false
        = (some cfgW.pollIntervalMs, ⟨none, some ciW, false⟩,
            [Call.getBlockHeightCall, Call.triggerPipelineCall,
              Call.delayCall POST_UPGRADE_WAIT_MS, Call.getChainIdentityCall]) :=
  ⟨rfl, rfl, c3_trigger_success_scenario cfgW envWsucc ciW false rfl rfl⟩

/-- Claim C8: detectUpgradePlan is idempotent with respect to network calls.
A single call performs at most one plan fetch; whenever the first call ends
with a cached plan, a second call is a no-op performing no calls and leaving
the state unchanged; and when no plan was cached and none was found, the
cached value stays absent. -/
theorem c8_detectUpgradePlan_idempotent (env1 env2 : Env)
    (state : MonitorState) :
    ((detectUpgradePlan env1 state).1.upgradePlanBlockHeight ≠ none →
        detectUpgradePlan env2 (detectUpgradePlan env1 state).1
          = ((detectUpgradePlan env1 state).1, []))
    ∧ (state.upgradePlanBlockHeight = none → env1.fetchPlan = none →
        (detectUpgradePlan env1 state).1.upgradePlanBlockHeight = none)
    ∧ (detectUpgradePlan env1 state).2.count Call.getUpgradePlanCall ≤ 1 := by
  rcases state with ⟨plan, cid, down⟩
  cases plan with
  | none =>
    cases hfp : env1.fetchPlan with
    | none => simp [detectUpgradePlan, hfp]
    | some q => simp [detectUpgradePlan, hfp]
  | some p => simp [detectUpgradePlan]

/-- The identity step never invokes the pipeline trigger. -/
theorem ensure_trace_trigger_count (env : Env) (state : MonitorState) :
    (ensureChainIdentity env state).2.2.count Call.triggerPipelineCall = 0 := by
  cases hcid : state.chainIdentity <;> simp [ensureChainIdentity, hcid]

/-- The liveness step never invokes the pipeline trigger. -/
theorem check_trace_trigger_count (env : Env) (state : MonitorState) :
    (checkNodeLiveness env state).2.2.count Call.triggerPipelineCall = 0 := by
  by_cases hf : jsOptFalsy env.fetchHeight = true <;>
    simp [checkNodeLiveness, hf]

/-- The plan-detection step never invokes the pipeline trigger. -/
theorem detect_trace_trigger_count (env : Env) (state : MonitorState) :
    (detectUpgradePlan env state).2.count Call.triggerPipelineCall = 0 := by
  cases hp : state.upgradePlanBlockHeight <;> simp [detectUpgradePlan, hp]

/-- The upgrade-execution step invokes the pipeline trigger at most once. -/
theorem handle_trace_trigger_count (env : Env) (state : MonitorState)
    (c : Int) :
    ((handleUpgradeExecution env state c).2.2).count Call.triggerPipelineCall
      ≤ 1 := by
  by_cases hcond : (jsOptFalsy state.upgradePlanBlockHeight
      || jsLtOpt c state.upgradePlanBlockHeight) = true
  · simp [handleUpgradeExecution, hcond]
  · rw [Bool.not_eq_true] at hcond
    cases htr : env.triggerResult <;>
      simp [handleUpgradeExecution, hcond, htr, List.count_cons]

/-- Any trigger invocation by the upgrade-execution step clears the cached
plan height when the pipeline succeeded and leaves it unchanged when it
failed. -/
theorem handle_clears_or_keeps (env : Env) (state : MonitorState) (c : Int)
    (hmem : Call.triggerPipelineCall ∈ (handleUpgradeExecution env state c).2.2) :
    (handleUpgradeExecution env state c).2.1.upgradePlanBlockHeight
      = if env.triggerResult then none else state.upgradePlanBlockHeight := by
  by_cases hcond : (jsOptFalsy state.upgradePlanBlockHeight
      || jsLtOpt c state.upgradePlanBlockHeight) = true
  · simp [handleUpgradeExecution, hcond] at hmem
  · rw [Bool.not_eq_true] at hcond
    cases htr : env.triggerResult <;>
      simp [handleUpgradeExecution, hcond, htr]

/-- One monitoring cycle invokes the pipeline trigger at most once. -/
theorem monitor_trace_trigger_count (cfg : Config) (env : Env)
    (state : MonitorState) (a : Bool) :
    ((monitorChain cfg env state a).2.2).count Call.triggerPipelineCall ≤ 1 := by
  simp only [monitorChain]
  split
  · simp
  · split
    · simp [ensure_trace_trigger_count]
    · split
      · simp [List.count_append, ensure_trace_trigger_count,
          check_trace_trigger_count]
      · split
        · simp [List.count_append, ensure_trace_trigger_count,
            check_trace_trigger_count, detect_trace_trigger_count]
        · split <;>
            simp [List.count_append, ensure_trace_trigger_count,
              check_trace_trigger_count, detect_trace_trigger_count,
              handle_trace_trigger_count]

/-- Claim C2: when the pipeline trigger reports failure, the cycle leaves
the cached plan height unchanged, performs exactly one 600000 ms
quiet-period wait after the single trigger call, and returns the configured
poll interval; moreover every trigger invocation either clears the cached
plan height (success) or leaves it in place (failure), and a cycle never
invokes the trigger twice. -/
theorem c2_trigger_failure_keeps_plan (cfg : Config) (env : Env)
    (ci : ChainIdentity) (down : Bool) (h c : Int)
    (hh : h ≠ 0) (hc : c ≠ 0) (hge : h ≤ c)
    (hfetch : env.fetchHeight = some c) (hfail : env.triggerResult = false) :
    monitorChain cfg env ⟨some h, some ci, down⟩ false
      = (some cfg.pollIntervalMs, ⟨some h, some ci, false⟩,
          [Call.getBlockHeightCall, Call.triggerPipelineCall,
            Call.delayCall POST_UPGRADE_WAIT_MS])
    ∧ (∀ (env2 : Env) (st2 : MonitorState) (c2 : Int),
        Call.triggerPipelineCall ∈ (handleUpgradeExecution env2 st2 c2).2.2 →
          (handleUpgradeExecution env2 st2 c2).2.1.upgradePlanBlockHeight
            = if env2.triggerResult then none else st2.upgradePlanBlockHeight)
    ∧ (∀ (cfg2 : Config) (env2 : Env) (st2 : MonitorState) (a : Bool),
        ((monitorChain cfg2 env2 st2 a).2.2).count Call.triggerPipelineCall
          ≤ 1) := by
  have hlt : ¬ c < h := not_lt.mpr hge
  refine ⟨?_, handle_clears_or_keeps, monitor_trace_trigger_count⟩
  simp [monitorChain, ensureChainIdentity, checkNodeLiveness, detectUpgradePlan,
    handleUpgradeExecution, hfetch, hfail, jsOptFalsy, jsLtOpt, hh, hc, hlt]

/-- Witness for claim C2 at plan height 15000 and current height 20000 with
a failing trigger. -/
theorem c2_witness :
    monitorChain cfgW envW ⟨some 15000, some ciW, false⟩ false
      = (some cfgW.pollIntervalMs, ⟨some 15000, some ciW, false⟩,
          [Call.getBlockHeightCall, Call.triggerPipelineCall,
            Call.delayCall POST_UPGRADE_WAIT_MS]) :=
  (c2_trigger_failure_keeps_plan cfgW envW ciW false 15000 20000
    (by decide) (by decide) (by decide) rfl rfl).1

/-- Claim C9: a cycle that throws is caught at the scheduler loop boundary,
which logs the error, sleeps the fixed 5000 ms retry delay, and keeps
iterating; the loop never observes an aborted end unless some iteration saw
the cancellation signal aborted, so a cycle error alone never terminates
the loop. -/
theorem c9_scheduler_error_handling (it : IterInput) (rest its : List IterInput)
    (hna : it.abortedAtTop = false) (hthrow : it.cycle = CycleResult.throws) :
    startMonitoring (it :: rest)
      = (SchedEvent.errorLogged :: SchedEvent.sleep ERROR_RETRY_INTERVAL_MS
          :: (startMonitoring rest).1, (startMonitoring rest).2)
    ∧ ((∀ j ∈ its, j.abortedAtTop = false) →
        (startMonitoring its).2 ≠ LoopEnd.abortedEnd)
    ∧ ((startMonitoring its).2 = LoopEnd.abortedEnd →
        ∃ j ∈ its, j.abortedAtTop = true) := by
  have hterm : ∀ (l : List IterInput), (∀ j ∈ l, j.abortedAtTop = false) →
      (startMonitoring l).2 ≠ LoopEnd.abortedEnd := by
    intro l
    induction l with
    | nil => intro _; simp [startMonitoring]
    | cons j tl ih =>
      intro hall
      have hj : j.abortedAtTop = false := hall j (List.mem_cons_self j tl)
      have htl := ih (fun k hk => hall k (List.mem_cons_of_mem j hk))
      cases hcyc : j.cycle with
      | throws => simpa [startMonitoring, hj, hcyc] using htl
      | ret d =>
        cases d with
        | none => simpa [startMonitoring, hj, hcyc] using htl
        | some ms => simpa [startMonitoring, hj, hcyc] using htl
  refine ⟨by simp [startMonitoring, hna, hthrow], hterm its, ?_⟩
  intro hend
  by_contra hno
  push_neg at hno
  refine hterm its (fun j hj => ?_) hend
  have h := hno j hj
  cases hb : j.abortedAtTop
  · rfl
  · exact absurd hb h

/-- Witness for claim C9: a single throwing iteration produces the error log
followed by the 5000 ms retry sleep, and a loop whose iterations never see
the aborted signal does not end on abortion. -/
theorem c9_witness :
    startMonitoring [⟨false, CycleResult.throws⟩]
      = ([SchedEvent.errorLogged, SchedEvent.sleep ERROR_RETRY_INTERVAL_MS],
          LoopEnd.fuelEnd)
    ∧ (startMonitoring [⟨false, CycleResult.throws⟩]).2 ≠ LoopEnd.abortedEnd := by
  have h := c9_scheduler_error_handling ⟨false, CycleResult.throws⟩ []
    [⟨false, CycleResult.throws⟩] rfl rfl
  exact ⟨h.1, h.2.1 (by decide)⟩

/-- The identity step preserves the cached plan height. -/
theorem ensure_preserves_plan (env : Env) (state : MonitorState) :
    (ensureChainIdentity env state).2.1.upgradePlanBlockHeight
      = state.upgradePlanBlockHeight := by
  cases h : state.chainIdentity <;> simp [ensureChainIdentity, h]

/-- The liveness step preserves the cached plan height. -/
theorem check_preserves_plan (env : Env) (state : MonitorState) :
    (checkNodeLiveness env state).2.1.upgradePlanBlockHeight
      = state.upgradePlanBlockHeight := by
  by_cases hf : jsOptFalsy env.fetchHeight = true <;> simp [checkNodeLiveness, hf]

/-- The identity step never invokes the pipeline trigger (membership form). -/
theorem ensure_no_trigger (env : Env) (state : MonitorState) :
    Call.triggerPipelineCall ∉ (ensureChainIdentity env state).2.2 :=
  List.count_eq_zero.mp (ensure_trace_trigger_count env state)

/-- The liveness step never invokes the pipeline trigger (membership form). -/
theorem check_no_trigger (env : Env) (state : MonitorState) :
    Call.triggerPipelineCall ∉ (checkNodeLiveness env state).2.2 :=
  List.count_eq_zero.mp (check_trace_trigger_count env state)

/-- The plan-detection step never invokes the pipeline trigger (membership
form). -/
theorem detect_no_trigger (env : Env) (state : MonitorState) :
    Call.triggerPipelineCall ∉ (detectUpgradePlan env state).2 :=
  List.count_eq_zero.mp (detect_trace_trigger_count env state)

/-- Once the identity step has resolved an identity, the delay a non-aborted
cycle returns is the long-poll interval exactly when the liveness check
treats the fetched height as absent (null or 0), and the configured poll
interval otherwise, whatever the plan state and trigger outcome. -/
theorem monitor_delay_with_identity (cfg : Config) (env : Env)
    (state st1 : MonitorState) (ci : ChainIdentity) (t1 : List Call)
    (hens : ensureChainIdentity env state = (some ci, st1, t1)) :
    (monitorChain cfg env state false).1
      = some (if jsOptFalsy env.fetchHeight = true then LONG_POLL_INTERVAL_MS
              else cfg.pollIntervalMs) := by
  rcases st1 with ⟨plan, cid1, down1⟩
  cases hfh : env.fetchHeight with
  | none => simp [monitorChain, hens, checkNodeLiveness, hfh, jsOptFalsy]
  | some c =>
    by_cases hc : c = 0
    · subst hc
      simp [monitorChain, hens, checkNodeLiveness, hfh, jsOptFalsy]
    · cases plan with
      | none =>
        cases hfp : env.fetchPlan with
        | none =>
          simp [monitorChain, hens, checkNodeLiveness, detectUpgradePlan, hfh,
            hfp, jsOptFalsy, hc]
        | some q =>
          by_cases hq : q = 0
          · subst hq
            simp [monitorChain, hens, checkNodeLiveness, detectUpgradePlan,
              hfh, hfp, jsOptFalsy, hc]
          · by_cases hlt : c < q
            · simp [monitorChain, hens, checkNodeLiveness, detectUpgradePlan,
                handleUpgradeExecution, hfh, hfp, jsOptFalsy, jsLtOpt, hc, hq,
                hlt]
            · cases htr : env.triggerResult <;>
                simp [monitorChain, hens, checkNodeLiveness, detectUpgradePlan,
                  handleUpgradeExecution, hfh, hfp, jsOptFalsy, jsLtOpt, hc, hq,
                  hlt, htr]
      | some p =>
        by_cases hp : p = 0
        · subst hp
          simp [monitorChain, hens, checkNodeLiveness, detectUpgradePlan, hfh,
            jsOptFalsy, hc]
        · by_cases hlt : c < p
          · simp [monitorChain, hens, checkNodeLiveness, detectUpgradePlan,
              handleUpgradeExecution, hfh, jsOptFalsy, jsLtOpt, hc, hp, hlt]
          · cases htr : env.triggerResult <;>
              simp [monitorChain, hens, checkNodeLiveness, detectUpgradePlan,
                handleUpgradeExecution, hfh, jsOptFalsy, jsLtOpt, hc, hp, hlt,
                htr]

/-- Claim C4: a non-aborted cycle returns exactly 10000 ms when the identity
resolution fails or the liveness check fails (the fetched height is absent
or 0, the failure test the source applies), and exactly the configured poll
interval in every other case; no other delay value is ever returned. -/
theorem c4_delay_policy (cfg : Config) (env : Env) (state : MonitorState) :
    (monitorChain cfg env state false).1
      = some (if (state.chainIdentity = none ∧ env.fetchIdentity = none)
                  ∨ jsOptFalsy env.fetchHeight = true
              then LONG_POLL_INTERVAL_MS else cfg.pollIntervalMs) := by
  cases hcid : state.chainIdentity with
  | none =>
    cases hfi : env.fetchIdentity with
    | none => simp [monitorChain, ensureChainIdentity, hcid, hfi]
    | some ci =>
      have hens : ensureChainIdentity env state
          = (some ci, { state with chainIdentity := some ci },
              [Call.getChainIdentityCall]) := by
        simp [ensureChainIdentity, hcid, hfi]
      rw [monitor_delay_with_identity cfg env state _ ci _ hens]
      simp [hcid, hfi]
  | some ci =>
    have hens : ensureChainIdentity env state = (some ci, state, []) := by
      simp [ensureChainIdentity, hcid]
    rw [monitor_delay_with_identity cfg env state _ ci _ hens]
    simp [hcid]

/-- Claim C10: the monitor conflates the number 0 with absence. A block
height fetch returning 0 is handled as a liveness failure (node marked down,
cycle waits, long-poll delay returned), and a cached or freshly fetched plan
height of 0 is handled as no plan present, so a cycle never invokes the
pipeline trigger for an upgrade scheduled at height 0. -/
theorem c10_zero_conflation :
    (∀ (env : Env) (state : MonitorState), env.fetchHeight = some 0 →
        checkNodeLiveness env state
          = ((none, true), { state with isCosmosNodeDown := true },
              [Call.getBlockHeightCall]))
    ∧ (∀ (cfg : Config) (env : Env) (state : MonitorState) (ci : ChainIdentity),
        env.fetchHeight = some 0 → state.chainIdentity = some ci →
          (monitorChain cfg env state false).1 = some LONG_POLL_INTERVAL_MS)
    ∧ (∀ (env : Env) (state : MonitorState) (c : Int),
        state.upgradePlanBlockHeight = some 0 →
          handleUpgradeExecution env state c = ((false, true), state, []))
    ∧ (∀ (cfg : Config) (env : Env) (state : MonitorState) (a : Bool),
        state.upgradePlanBlockHeight = some 0
          ∨ (state.upgradePlanBlockHeight = none ∧ env.fetchPlan = some 0) →
          Call.triggerPipelineCall ∉ (monitorChain cfg env state a).2.2) := by
  refine ⟨?_, ?_, ?_, ?_⟩
  · intro env state hfh
    simp [checkNodeLiveness, hfh, jsOptFalsy]
  · intro cfg env state ci hfh hcid
    have hens : ensureChainIdentity env state = (some ci, state, []) := by
      simp [ensureChainIdentity, hcid]
    rw [monitor_delay_with_identity cfg env state state ci [] hens]
    simp [hfh, jsOptFalsy]
  · intro env state c hplan
    simp [handleUpgradeExecution, hplan, jsOptFalsy]
  · intro cfg env state a hz
    have hp3 : (detectUpgradePlan env
        ((checkNodeLiveness env
          ((ensureChainIdentity env state).2.1)).2.1)).1.upgradePlanBlockHeight
        = some 0 := by
      have heq : ((checkNodeLiveness env
          ((ensureChainIdentity env state).2.1)).2.1).upgradePlanBlockHeight
          = state.upgradePlanBlockHeight := by
        rw [check_preserves_plan, ensure_preserves_plan]
      rcases hz with hz | ⟨hz, hfp⟩
      · have h2 := heq.trans hz
        simp [detectUpgradePlan, h2]
      · have h2 := heq.trans hz
        simp [detectUpgradePlan, h2, hfp]
    simp only [monitorChain]
    split
    · simp
    · split
      · exact ensure_no_trigger env state
      · split
        · simp [List.mem_append, ensure_no_trigger, check_no_trigger]
        · split
          · simp [List.mem_append, ensure_no_trigger, check_no_trigger,
              detect_no_trigger]
          · next hcond =>
            exfalso
            rw [hp3] at hcond
            simp [jsOptFalsy] at hcond

/-- Witness for claim C10 at fetched height 0 and cached plan height 0. -/
theorem c10_witness :
    checkNodeLiveness envZero stW
      = ((none, true), { stW with isCosmosNodeDown := true },
          [Call.getBlockHeightCall])
    ∧ handleUpgradeExecution envW stZero 20000 = ((false, true), stZero, [])
    ∧ Call.triggerPipelineCall ∉ (monitorChain cfgW envW stZero false).2.2 := by
  have h := c10_zero_conflation
  exact ⟨h.1 envZero stW rfl, h.2.2.1 envW stZero 20000 rfl,
    h.2.2.2 cfgW envW stZero false (Or.inl rfl)⟩

/-- Witness for claim C8: after a first call caches plan height 15000, the
second call is a no-op. -/
theorem c8_witness :
    (detectUpgradePlan envW ⟨none, none, false⟩).1.upgradePlanBlockHeight ≠ none
    ∧ detectUpgradePlan envWsucc (detectUpgradePlan envW ⟨none, none, false⟩).1
        = ((detectUpgradePlan envW ⟨none, none, false⟩).1, []) :=
  ⟨by decide,
    (c8_detectUpgradePlan_idempotent envW envWsucc ⟨none, none, false⟩).1 (by decide)⟩

end CosmoTrigger
